import Mathlib

/-!
Verification of the student-performance dashboard (src/app.py).

The Python dicts of the app are embedded as association lists over `PyVal`
(a number or a string); marks and percentages are modelled as exact
rationals `ℚ`. Fitted label encoders are partial maps from strings to
integer codes (`transform` fails on unseen values, as sklearn raises
ValueError). Functions that can raise Python exceptions (KeyError on a
missing dict key, TypeError on indexing None) return `Option` / `Except`.
-/

namespace StudentPerf

/-- Value stored in one of the Python dicts of the app: a number or a string. -/
inductive PyVal where
  | num (q : ℚ)
  | str (s : String)
deriving DecidableEq

/-- Python dict with string keys, kept in insertion order. -/
abbrev PyDict := List (String × PyVal)

/-- Embedding of Python dict indexing `d[k]` (first matching key, `none` on a miss). -/
def pyGet {α : Type} : List (String × α) → String → Option α
  | [], _ => none
  | (k', v) :: rest, k => if k' = k then some v else pyGet rest k

/-- Embedding of Python dict assignment `d[k] = v`: replace in place if the key
exists, otherwise append (insertion order preserved). -/
def pySet {α : Type} : List (String × α) → String → α → List (String × α)
  | [], k, v => [(k, v)]
  | (k', v') :: rest, k, v =>
      if k' = k then (k, v) :: rest else (k', v') :: pySet rest k v

/-- Read `d[k]` expecting a number; `none` models KeyError or a type mismatch. -/
def dgetNum (d : PyDict) (k : String) : Option ℚ :=
  match pyGet d k with
  | some (.num q) => some q
  | _ => none

/-- Read `d[k]` expecting a string; `none` models KeyError or a type mismatch. -/
def dgetStr (d : PyDict) (k : String) : Option String :=
  match pyGet d k with
  | some (.str v) => some v
  | _ => none

/-- Embedding of `d.get(k, dflt)` for string values: the default is returned
only when the key is absent. -/
def dgetStrD (d : PyDict) (k : String) (dflt : String) : Option String :=
  match pyGet d k with
  | none => some dflt
  | some (.str v) => some v
  | some (.num _) => none

/-- A fitted label encoder (app.py consumes it through `transform`):
returns the integer code of a known value, fails (ValueError) on an unseen one. -/
structure Encoder where
  transform : String → Option ℤ

/-- The encoder collection loaded from `label_encoders.joblib`: one fitted
encoder for each categorical field, indexed by field name in app.py. -/
structure Encoders where
  Gender : Encoder
  Residence : Encoder
  Disability : Encoder

/-- Embedding of `safe_encode` (app.py lines 23-27): try the encoder, return 0
when `transform` fails on an unseen value. -/
def safe_encode (encoder : Encoder) (value : String) : ℤ :=
  match encoder.transform value with
  | some code => code
  | none => 0

/-- Embedding of `max_internal_marks = 20 * 3` (app.py line 37). -/
def max_internal_marks : ℚ := 20 * 3

/-- Embedding of `max_assignment_marks = 10` (app.py line 38). -/
def max_assignment_marks : ℚ := 10

/-- Embedding of `max_activity_marks = 5` (app.py line 39). -/
def max_activity_marks : ℚ := 5

/-- Embedding of `max_total_marks` (app.py line 40). -/
def max_total_marks : ℚ := max_internal_marks + max_assignment_marks + max_activity_marks

/-- The feature name list of `prepare_student_data` (app.py lines 50-57),
in source order. -/
def features : List String :=
  ["Internal_1", "Internal_2", "Internal_3",
   "Assignment_Marks", "Other_Activities",
   "Total_Internal_Marks", "Total_Marks",
   "Gender_Encoded", "Residence_Encoded",
   "Disability_Encoded", "Attendance_Percentage",
   "Study_Hours_Per_Week", "Part_Time_Job"]

/-- Embedding of the body of `prepare_student_data` up to the feature
selection (app.py lines 29-47): copy the input dict, add the three encoded
fields and the derived aggregates. `none` models an uncaught KeyError. -/
def buildStudentData (student_info : PyDict) (encoders : Encoders) : Option PyDict := do
  let student_data := student_info
  let gender ← dgetStr student_info "Gender"
  let student_data := pySet student_data "Gender_Encoded"
    (.num (safe_encode encoders.Gender gender : ℚ))
  let residence ← dgetStr student_info "Residence"
  let student_data := pySet student_data "Residence_Encoded"
    (.num (safe_encode encoders.Residence residence : ℚ))
  let disability ← dgetStrD student_info "Disability" "None"
  let student_data := pySet student_data "Disability_Encoded"
    (.num (safe_encode encoders.Disability disability : ℚ))
  let i1 ← dgetNum student_info "Internal_1"
  let i2 ← dgetNum student_info "Internal_2"
  let i3 ← dgetNum student_info "Internal_3"
  let am ← dgetNum student_info "Assignment_Marks"
  let oa ← dgetNum student_info "Other_Activities"
  let total_internal_marks := i1 + i2 + i3
  let total_marks := total_internal_marks + am + oa
  let student_data := pySet student_data "Total_Internal_Marks" (.num total_internal_marks)
  let student_data := pySet student_data "Total_Marks" (.num total_marks)
  let student_data := pySet student_data "Performance_Grade_Percentage"
    (.num (total_marks / max_total_marks * 100))
  pure student_data

/-- Embedding of `prepare_student_data` (app.py lines 21-59): build the
enriched dict, then select the 13 features in order, as
`pd.DataFrame([student_data])[features]` does. -/
def prepare_student_data (student_info : PyDict) (encoders : Encoders) :
    Option (List ℚ) := do
  let student_data ← buildStudentData student_info encoders
  features.mapM (dgetNum student_data)

/-- The raw inputs collected by the sidebar form (app.py lines 177-190):
marks and hours as numbers, categorical fields as strings, the part-time
flag as 0/1. -/
structure StudentInput where
  Internal_1 : ℚ
  Internal_2 : ℚ
  Internal_3 : ℚ
  Assignment_Marks : ℚ
  Other_Activities : ℚ
  Gender : String
  Residence : String
  Disability : String
  Attendance_Percentage : ℚ
  Study_Hours_Per_Week : ℚ
  Part_Time_Job : ℚ

/-- The `student_info` dict literal that `main` builds from the form
(app.py lines 197-209), keys in source order. -/
def toDict (s : StudentInput) : PyDict :=
  [("Internal_1", .num s.Internal_1),
   ("Internal_2", .num s.Internal_2),
   ("Internal_3", .num s.Internal_3),
   ("Assignment_Marks", .num s.Assignment_Marks),
   ("Other_Activities", .num s.Other_Activities),
   ("Gender", .str s.Gender),
   ("Residence", .str s.Residence),
   ("Disability", .str s.Disability),
   ("Attendance_Percentage", .num s.Attendance_Percentage),
   ("Study_Hours_Per_Week", .num s.Study_Hours_Per_Week),
   ("Part_Time_Job", .num s.Part_Time_Job)]

/-- Helper: on the dict built by `main`, `prepare_student_data` succeeds and
returns exactly the 13 feature values in source order. -/
theorem prepare_toDict_eq (s : StudentInput) (encoders : Encoders) :
    prepare_student_data (toDict s) encoders =
      some [s.Internal_1, s.Internal_2, s.Internal_3,
            s.Assignment_Marks, s.Other_Activities,
            s.Internal_1 + s.Internal_2 + s.Internal_3,
            s.Internal_1 + s.Internal_2 + s.Internal_3 +
              s.Assignment_Marks + s.Other_Activities,
            (safe_encode encoders.Gender s.Gender : ℚ),
            (safe_encode encoders.Residence s.Residence : ℚ),
            (safe_encode encoders.Disability s.Disability : ℚ),
            s.Attendance_Percentage, s.Study_Hours_Per_Week, s.Part_Time_Job] := by
  rfl

/-- C1: for every StudentInput and every encoder collection,
`prepare_student_data` returns a feature vector with exactly 13 fields in
the fixed source order, regardless of input values, and
Performance_Grade_Percentage is not among the selected features even though
it is computed into `student_data`. -/
theorem prepare_vector_order (s : StudentInput) (encoders : Encoders) :
    prepare_student_data (toDict s) encoders =
      some [s.Internal_1, s.Internal_2, s.Internal_3,
            s.Assignment_Marks, s.Other_Activities,
            s.Internal_1 + s.Internal_2 + s.Internal_3,
            s.Internal_1 + s.Internal_2 + s.Internal_3 +
              s.Assignment_Marks + s.Other_Activities,
            (safe_encode encoders.Gender s.Gender : ℚ),
            (safe_encode encoders.Residence s.Residence : ℚ),
            (safe_encode encoders.Disability s.Disability : ℚ),
            s.Attendance_Percentage, s.Study_Hours_Per_Week, s.Part_Time_Job] ∧
    features.length = 13 ∧
    "Performance_Grade_Percentage" ∉ features := by
  exact ⟨prepare_toDict_eq s encoders, by decide, by decide⟩

/-- C3: `prepare_student_data` computes the derived aggregates by exact
arithmetic: Total_Internal_Marks is the sum of the three internals,
Total_Marks adds assignment and activities, and
Performance_Grade_Percentage is Total_Marks / 75 * 100, where the
denominator 75 is computed as 3 * 20 + 10 + 5 in the source. -/
theorem derived_aggregates (s : StudentInput) (encoders : Encoders) :
    (∃ sd, buildStudentData (toDict s) encoders = some sd ∧
      dgetNum sd "Total_Internal_Marks" =
        some (s.Internal_1 + s.Internal_2 + s.Internal_3) ∧
      dgetNum sd "Total_Marks" =
        some (s.Internal_1 + s.Internal_2 + s.Internal_3 +
              s.Assignment_Marks + s.Other_Activities) ∧
      dgetNum sd "Performance_Grade_Percentage" =
        some ((s.Internal_1 + s.Internal_2 + s.Internal_3 +
               s.Assignment_Marks + s.Other_Activities) / 75 * 100)) ∧
    max_total_marks = 75 ∧ max_total_marks = 20 * 3 + 10 + 5 := by
  refine ⟨⟨_, rfl, rfl, rfl, ?_⟩, by norm_num [max_total_marks,
    max_internal_marks, max_assignment_marks, max_activity_marks], by norm_num [max_total_marks,
    max_internal_marks, max_assignment_marks, max_activity_marks]⟩
  show some _ = some _
  norm_num [max_total_marks, max_internal_marks, max_assignment_marks, max_activity_marks]

/-- C4: if a fitted encoder fails on an unseen value, `safe_encode` substitutes
the code 0 instead of failing; in particular a Gender value unseen by the
Gender encoder makes the eighth feature (Gender_Encoded) equal 0, and
`prepare_student_data` still succeeds. -/
theorem unseen_category_fallback (e : Encoder) (v : String)
    (s : StudentInput) (encoders : Encoders)
    (henc : e.transform v = none)
    (hg : encoders.Gender.transform s.Gender = none) :
    safe_encode e v = 0 ∧
    (prepare_student_data (toDict s) encoders).bind (fun out => out[7]?) =
      some 0 := by
  constructor
  · simp [safe_encode, henc]
  · rw [prepare_toDict_eq]
    simp [safe_encode, hg]

/-- Sample Gender encoder, fitted on Female, Male, Other as sklearn
LabelEncoder would (alphabetical codes); unseen values fail. -/
def genderEnc : Encoder :=
  ⟨fun v => if v = "Female" then some 0 else if v = "Male" then some 1
            else if v = "Other" then some 2 else none⟩

/-- Sample Residence encoder, fitted on Rural, Suburban, Urban. -/
def residenceEnc : Encoder :=
  ⟨fun v => if v = "Rural" then some 0 else if v = "Suburban" then some 1
            else if v = "Urban" then some 2 else none⟩

/-- Sample Disability encoder, fitted on Learning, None, Physical. -/
def disabilityEnc : Encoder :=
  ⟨fun v => if v = "Learning" then some 0 else if v = "None" then some 1
            else if v = "Physical" then some 2 else none⟩

/-- Sample encoder collection for concrete evaluations. -/
def sampleEncs : Encoders := ⟨genderEnc, residenceEnc, disabilityEnc⟩

/-- Concrete student whose Gender value is unseen by `genderEnc`. -/
def unseenStudent : StudentInput :=
  ⟨12, 14, 9, 7, 3, "Dragon", "Urban", "None", 85, 12, 1⟩

/-- Witness for C4: the Gender encoder fails on the concrete value Dragon,
and the fallback 0 lands in the Gender_Encoded slot of the feature vector. -/
theorem unseen_category_fallback_witness :
    genderEnc.transform "Dragon" = none ∧
    (safe_encode genderEnc "Dragon" = 0 ∧
     (prepare_student_data (toDict unseenStudent) sampleEncs).bind
        (fun out => out[7]?) = some 0) :=
  ⟨rfl, unseen_category_fallback genderEnc "Dragon" unseenStudent sampleEncs rfl rfl⟩

/-- A recommendation card as built by `generate_detailed_recommendations`:
every card literal in the source has exactly the four keys type, message,
icon, color. -/
structure Card where
  type : String
  message : String
  icon : String
  color : String
deriving DecidableEq

/-- The static `grade_recommendations` table (app.py lines 70-91): two cards
for each of A+, A, B, C, D; grade F has no entry. -/
def grade_recommendations : List (String × List Card) :=
  [("A+", [⟨"Excellence", "Pursue Advanced Academic Challenges", "🏆", "green"⟩,
           ⟨"Opportunity", "Consider Research or Mentorship Programs", "🔬", "green"⟩]),
   ("A", [⟨"Consistent", "Maintain High Performance, Explore Depth", "📈", "darkgreen"⟩,
          ⟨"Growth", "Develop Interdisciplinary Skills", "🌱", "darkgreen"⟩]),
   ("B", [⟨"Potential", "Focus on Targeted Academic Improvement", "🎯", "blue"⟩,
          ⟨"Strategy", "Develop Advanced Study Techniques", "📚", "blue"⟩]),
   ("C", [⟨"Alert", "Requires Comprehensive Academic Support", "⚠️", "orange"⟩,
          ⟨"Action", "Implement Structured Learning Plan", "📋", "orange"⟩]),
   ("D", [⟨"Critical", "Immediate Academic Intervention Needed", "🚨", "red"⟩,
          ⟨"Support", "Seek Personalized Tutoring", "🤝", "red"⟩])]

/-- The weakness card appended for an internal exam below 10
(app.py lines 104-109); the message interpolates the exam name. -/
def weaknessCard (internal_name : String) : Card :=
  ⟨"Weakness", "Critical Improvement Needed in " ++ internal_name, "🔍", "red"⟩

/-- The two fixed improvement-strategy cards (app.py lines 112-115). -/
def improvementCards : List Card :=
  [⟨"Skill", "Enhance Time Management", "⏰", "purple"⟩,
   ⟨"Learning", "Develop Active Study Techniques", "💡", "teal"⟩]

/-- Embedding of `generate_detailed_recommendations` (app.py lines 61-117):
the recommendations dict starts with its three keys, grade_specific is the
table lookup with default empty list, internal_analysis appends one weakness
card per internal mark below 10 in source order, improvement_strategies is
the fixed pair. `none` models KeyError on `student_info`. -/
def generate_detailed_recommendations (student_info : PyDict)
    (predicted_grade : String) : Option (List (String × List Card)) := do
  let recommendations : List (String × List Card) :=
    [("grade_specific", []), ("internal_analysis", []), ("improvement_strategies", [])]
  let recommendations := pySet recommendations "grade_specific"
    ((pyGet grade_recommendations predicted_grade).getD [])
  let i1 ← dgetNum student_info "Internal_1"
  let i2 ← dgetNum student_info "Internal_2"
  let i3 ← dgetNum student_info "Internal_3"
  let internals := [("Internal_1", i1), ("Internal_2", i2), ("Internal_3", i3)]
  let recommendations := internals.foldl (fun recs p =>
    if p.2 < 10 then
      pySet recs "internal_analysis"
        ((pyGet recs "internal_analysis").getD [] ++ [weaknessCard p.1])
    else recs) recommendations
  let recommendations := pySet recommendations "improvement_strategies" improvementCards
  pure recommendations

/-- Helper: closed form of the recommendations dict on the `main` input dict. -/
theorem genRecs_toDict (s : StudentInput) (g : String) :
    generate_detailed_recommendations (toDict s) g =
      some [("grade_specific", (pyGet grade_recommendations g).getD []),
            ("internal_analysis",
              (if s.Internal_1 < 10 then [weaknessCard "Internal_1"] else []) ++
              (if s.Internal_2 < 10 then [weaknessCard "Internal_2"] else []) ++
              (if s.Internal_3 < 10 then [weaknessCard "Internal_3"] else [])),
            ("improvement_strategies", improvementCards)] := by
  by_cases h1 : s.Internal_1 < 10 <;> by_cases h2 : s.Internal_2 < 10 <;>
    by_cases h3 : s.Internal_3 < 10 <;>
      simp [generate_detailed_recommendations, toDict, dgetNum, pyGet, pySet,
        h1, h2, h3]

/-- Concrete student sitting on the internal-exam threshold: Internal_1 is
9.9 (just below 10), Internal_2 is exactly 10, Internal_3 is 15. -/
def boundaryStudent : StudentInput :=
  ⟨99 / 10, 10, 15, 8, 4, "Female", "Urban", "None", 80, 10, 0⟩

/-- C5: internal_analysis holds exactly one Weakness card per internal exam
scoring strictly below 10, none at or above 10, in Internal_1, Internal_2,
Internal_3 order; concretely, a 9.9 emits a card and a 10.0 does not. -/
theorem internal_analysis_cards :
    (∀ (s : StudentInput) (g : String),
      (generate_detailed_recommendations (toDict s) g).bind
          (fun r => pyGet r "internal_analysis") =
        some ((if s.Internal_1 < 10 then [weaknessCard "Internal_1"] else []) ++
              (if s.Internal_2 < 10 then [weaknessCard "Internal_2"] else []) ++
              (if s.Internal_3 < 10 then [weaknessCard "Internal_3"] else []))) ∧
    (generate_detailed_recommendations (toDict boundaryStudent) "A").bind
        (fun r => pyGet r "internal_analysis") =
      some [weaknessCard "Internal_1"] := by
  constructor
  · intro s g
    rw [genRecs_toDict]
    rfl
  · rw [genRecs_toDict]
    have h1 : boundaryStudent.Internal_1 < 10 := by norm_num [boundaryStudent]
    have h2 : ¬boundaryStudent.Internal_2 < 10 := by norm_num [boundaryStudent]
    have h3 : ¬boundaryStudent.Internal_3 < 10 := by norm_num [boundaryStudent]
    rw [if_pos h1, if_neg h2, if_neg h3]
    rfl

/-- C6: grade_specific is determined solely by the predicted grade via the
static table: two cards for each of A+, A, B, C, D, an empty list for the
lookup miss F, and for A+ the first message is exactly
Pursue Advanced Academic Challenges. -/
theorem grade_specific_lookup :
    (∀ (s : StudentInput) (g : String),
      (generate_detailed_recommendations (toDict s) g).bind
          (fun r => pyGet r "grade_specific") =
        some ((pyGet grade_recommendations g).getD [])) ∧
    ((pyGet grade_recommendations "A+").getD []).length = 2 ∧
    ((pyGet grade_recommendations "A").getD []).length = 2 ∧
    ((pyGet grade_recommendations "B").getD []).length = 2 ∧
    ((pyGet grade_recommendations "C").getD []).length = 2 ∧
    ((pyGet grade_recommendations "D").getD []).length = 2 ∧
    (pyGet grade_recommendations "F").getD [] = ([] : List Card) ∧
    ((pyGet grade_recommendations "A+").getD []).head?.map Card.message =
      some "Pursue Advanced Academic Challenges" := by
  refine ⟨fun s g => ?_, rfl, rfl, rfl, rfl, rfl, rfl, rfl⟩
  rw [genRecs_toDict]
  rfl

/-- C8: improvement_strategies is always exactly the same two fixed cards,
Enhance Time Management then Develop Active Study Techniques, for every
input and every predicted grade. -/
theorem improvement_strategies_fixed (s : StudentInput) (g : String) :
    (generate_detailed_recommendations (toDict s) g).bind
        (fun r => pyGet r "improvement_strategies") =
      some [⟨"Skill", "Enhance Time Management", "⏰", "purple"⟩,
            ⟨"Learning", "Develop Active Study Techniques", "💡", "teal"⟩] := by
  rw [genRecs_toDict]
  rfl

/-- C10: for every input and every predicted grade string (known or not),
the recommendations dict has exactly the three keys grade_specific,
internal_analysis, improvement_strategies in that order; every card carries
exactly the four fields type, message, icon, color (the `Card` record); and
internal_analysis holds at most 3 cards. -/
theorem recommendations_shape (s : StudentInput) (g : String) :
    ∃ recs, generate_detailed_recommendations (toDict s) g = some recs ∧
      recs.map Prod.fst =
        ["grade_specific", "internal_analysis", "improvement_strategies"] ∧
      (∀ p ∈ recs, ∀ c ∈ p.2, c = Card.mk c.type c.message c.icon c.color) ∧
      ((pyGet recs "internal_analysis").getD []).length ≤ 3 := by
  refine ⟨_, genRecs_toDict s g, rfl, ?_, ?_⟩
  · intro p _ c _
    rfl
  · show ((if s.Internal_1 < 10 then [weaknessCard "Internal_1"] else []) ++
          (if s.Internal_2 < 10 then [weaknessCard "Internal_2"] else []) ++
          (if s.Internal_3 < 10 then [weaknessCard "Internal_3"] else [])).length ≤ 3
    split_ifs <;> simp [weaknessCard]

/-- The radar axis labels (app.py lines 121-125), in source order. -/
def radar_categories : List String :=
  ["Internal 1", "Internal 2", "Internal 3",
   "Assignment", "Activities",
   "Attendance", "Study Hours"]

/-- Embedding of the `values` series of `create_performance_radar`
(app.py lines 127-135): internals scaled by /20*100, assignment /10*100,
activities /5*100, attendance passed through, study hours scaled by 2.5 and
clamped at 100. `none` models KeyError on `student_info`. -/
def create_performance_radar (student_info : PyDict) : Option (List ℚ) := do
  let i1 ← dgetNum student_info "Internal_1"
  let i2 ← dgetNum student_info "Internal_2"
  let i3 ← dgetNum student_info "Internal_3"
  let am ← dgetNum student_info "Assignment_Marks"
  let oa ← dgetNum student_info "Other_Activities"
  let att ← dgetNum student_info "Attendance_Percentage"
  let sh ← dgetNum student_info "Study_Hours_Per_Week"
  pure [i1 / 20 * 100, i2 / 20 * 100, i3 / 20 * 100,
        am / 10 * 100, oa / 5 * 100, att,
        min (sh * (5 / 2)) 100]

/-- Concrete student for the radar examples: full marks on Internal_1 and
10 study hours. -/
def radarStudentA : StudentInput :=
  ⟨20, 10, 10, 5, 5, "Male", "Rural", "None", 80, 10, 1⟩

/-- Concrete student with 50 study hours (above the clamp point). -/
def radarStudentB : StudentInput :=
  ⟨20, 10, 10, 5, 5, "Male", "Rural", "None", 80, 50, 1⟩

/-- C7: the radar series has exactly 7 values in the fixed axis order, with
each internal scaled by /20*100, assignment /10*100, activities /5*100,
attendance passed through unchanged, and study hours scaled by 2.5 with an
explicit clamp at 100 (the only clamped axis); concretely Internal_1 = 20
gives a first value of 100, study hours 10 gives 25 and 50 gives 100. -/
theorem radar_values :
    (∀ s : StudentInput,
      create_performance_radar (toDict s) =
        some [s.Internal_1 / 20 * 100, s.Internal_2 / 20 * 100,
              s.Internal_3 / 20 * 100, s.Assignment_Marks / 10 * 100,
              s.Other_Activities / 5 * 100, s.Attendance_Percentage,
              min (s.Study_Hours_Per_Week * (5 / 2)) 100]) ∧
    radar_categories.length = 7 ∧
    radar_categories =
      ["Internal 1", "Internal 2", "Internal 3", "Assignment", "Activities",
       "Attendance", "Study Hours"] ∧
    create_performance_radar (toDict radarStudentA) =
      some [100, 50, 50, 50, 100, 80, 25] ∧
    create_performance_radar (toDict radarStudentB) =
      some [100, 50, 50, 50, 100, 80, 100] := by
  have huniv : ∀ s : StudentInput,
      create_performance_radar (toDict s) =
        some [s.Internal_1 / 20 * 100, s.Internal_2 / 20 * 100,
              s.Internal_3 / 20 * 100, s.Assignment_Marks / 10 * 100,
              s.Other_Activities / 5 * 100, s.Attendance_Percentage,
              min (s.Study_Hours_Per_Week * (5 / 2)) 100] := fun s => rfl
  refine ⟨huniv, rfl, rfl, ?_, ?_⟩ <;> rw [huniv] <;>
    norm_num [radarStudentA, radarStudentB, min_def]

/-- The classifier artifact, opaque apart from its `predict` contract. -/
structure Model where
  predict : List ℚ → String

/-- The message shown by `load_model_components` when the artifacts are
missing (app.py line 18). -/
def model_not_found_msg : String :=
  "Model files not found. Please ensure model training is complete."

/-- Embedding of `load_model_components` (app.py lines 11-19): when the
artifact files are present both objects load; on FileNotFoundError an error
message is shown and the sentinel pair (None, None) is returned. The first
component collects the messages shown to the user. -/
def load_model_components (present : Bool) (m : Model) (e : Encoders) :
    List String × Option Model × Option Encoders :=
  if present then ([], some m, some e)
  else ([model_not_found_msg], none, none)

/-- Embedding of the prediction path of `main` (app.py lines 212-214): load
the artifacts, call `prepare_student_data` on whatever `encoders` holds,
then `model.predict`. An `Except.error` models an uncaught Python exception
escaping `main`: indexing into `encoders = None` raises TypeError, a missing
feature raises KeyError, and `None.predict` raises AttributeError. -/
def analyze_pipeline (present : Bool) (m : Model) (e : Encoders)
    (student_info : PyDict) : List String × Except String (List ℚ × String) :=
  let loaded := load_model_components present m e
  match loaded.2.2 with
  | none => (loaded.1, Except.error "TypeError: NoneType is not subscriptable")
  | some encoders =>
    match prepare_student_data student_info encoders with
    | none => (loaded.1, Except.error "KeyError")
    | some student_features =>
      match loaded.2.1 with
      | none => (loaded.1, Except.error "AttributeError: NoneType has no predict")
      | some model =>
        (loaded.1, Except.ok (student_features, model.predict student_features))

/-- C2 (defect demonstration): when the artifacts are absent, `main` shows
the static error message but then still runs the prediction path on the
(None, None) sentinel, so an uncaught exception escapes; the pipeline does
not short-circuit as the claim requires. -/
theorem artifacts_absent_uncaught (m : Model) (e : Encoders) (info : PyDict) :
    (analyze_pipeline false m e info).1 = [model_not_found_msg] ∧
    (analyze_pipeline false m e info).2 =
      Except.error "TypeError: NoneType is not subscriptable" :=
  ⟨rfl, rfl⟩

/-- A heap of Python dicts: dict variables are references (indices) into it.
This makes the aliasing behaviour of `student_info.copy()` explicit. -/
abbrev Heap := List PyDict

/-- Dereference a dict reference. -/
def hget (h : Heap) (r : Nat) : PyDict := h.getD r []

/-- In-place assignment `h[r][k] = v` through a dict reference. -/
def hset (h : Heap) (r : Nat) (k : String) (v : PyVal) : Heap :=
  h.set r (pySet (hget h r) k v)

/-- State-explicit embedding of `prepare_student_data` (app.py lines 21-59):
the caller passes a reference to `student_info`; line 29 allocates a fresh
dict holding a copy of its entries, and every subsequent assignment mutates
that fresh dict. Returns the final heap and the selected features. -/
def prepare_student_data_heap (h : Heap) (r : Nat) (encoders : Encoders) :
    Heap × Option (List ℚ) :=
  let student_info := hget h r
  let sd := h.length
  let h1 := h ++ [student_info]
  match dgetStr student_info "Gender", dgetStr student_info "Residence",
        dgetStrD student_info "Disability" "None",
        dgetNum student_info "Internal_1", dgetNum student_info "Internal_2",
        dgetNum student_info "Internal_3",
        dgetNum student_info "Assignment_Marks",
        dgetNum student_info "Other_Activities" with
  | some gender, some residence, some disability, some i1, some i2, some i3,
    some am, some oa =>
      let h2 := hset h1 sd "Gender_Encoded"
        (.num (safe_encode encoders.Gender gender : ℚ))
      let h3 := hset h2 sd "Residence_Encoded"
        (.num (safe_encode encoders.Residence residence : ℚ))
      let h4 := hset h3 sd "Disability_Encoded"
        (.num (safe_encode encoders.Disability disability : ℚ))
      let total_internal_marks := i1 + i2 + i3
      let total_marks := total_internal_marks + am + oa
      let h5 := hset h4 sd "Total_Internal_Marks" (.num total_internal_marks)
      let h6 := hset h5 sd "Total_Marks" (.num total_marks)
      let h7 := hset h6 sd "Performance_Grade_Percentage"
        (.num (total_marks / max_total_marks * 100))
      (h7, features.mapM (dgetNum (hget h7 sd)))
  | _, _, _, _, _, _, _, _ => (h1, none)

/-- Helper: reading below the old length is unaffected by appending a dict. -/
theorem hget_append (h : Heap) (d : PyDict) (r : Nat) (hr : r < h.length) :
    hget (h ++ [d]) r = hget h r := by
  simp [hget, List.getD, List.getElem?_append_left hr]

/-- Helper: an in-place write through one reference leaves the dict behind
every other reference unchanged. -/
theorem hget_hset_ne (h : Heap) (i j : Nat) (k : String) (v : PyVal)
    (hne : i ≠ j) : hget (hset h i k v) j = hget h j := by
  simp [hget, hset, List.getD, List.getElem?_set_ne hne]

/-- C9: `prepare_student_data` never mutates the `student_info` dict of the
caller: line 29 copies it into a fresh dict and every write lands there, so
after the call the reference held by the caller still holds exactly the old
entries. -/
theorem caller_dict_unchanged (h : Heap) (r : Nat) (encoders : Encoders)
    (hr : r < h.length) :
    hget (prepare_student_data_heap h r encoders).1 r = hget h r := by
  have hne : h.length ≠ r := (Nat.ne_of_lt hr).symm
  unfold prepare_student_data_heap
  dsimp only
  split <;>
    simp [hget_hset_ne _ _ _ _ _ hne, hget_append _ _ _ hr]

/-- Witness for C9: on a concrete one-dict heap, running the preparer leaves
the dict of the caller exactly as it was. -/
theorem caller_dict_unchanged_witness :
    0 < ([toDict radarStudentA] : Heap).length ∧
    hget (prepare_student_data_heap [toDict radarStudentA] 0 sampleEncs).1 0 =
      hget [toDict radarStudentA] 0 :=
  ⟨by decide,
   caller_dict_unchanged [toDict radarStudentA] 0 sampleEncs (by decide)⟩

end StudentPerf
